import Mathlib

/-!
Verification of the GEPA prompt-optimization core of DSPyground
(`src/app/api/optimize/route.ts`, helpers in `src/lib/metrics.ts`).

Shallow embedding conventions:
* JavaScript numbers are modelled as rationals (`ℚ`); the code only adds,
  divides by list lengths and compares scores, so exact arithmetic is faithful.
* `MetricScores` (a JS object mapping metric name to number) is an association
  list; `metric ?? 0` reads are `getMetric`, `!== undefined` reads are `lookup`.
* Every LLM call is a free input (an oracle function passed explicitly):
  `generateObject` / `generateText` outcomes are `Except Unit _` values, a
  thrown provider error being `.error ()`.  `judgeAndScoreSample` (imported
  from `lib/metrics.ts`, whose judge body is an LLM call) is an oracle from
  sample and generated trajectory to its structured result.
* `Math.random()` index draws are a free stream `randoms : ℕ → ℕ`, reduced
  modulo the sample-list length exactly where the code computes
  `Math.floor(Math.random() * allSamples.length)`.
* The SSE sink `sendProgress` is modelled by accumulating the emitted event
  objects in a list, in call order.  Human-readable `message` strings built
  with `toFixed` float formatting are elided; all structural fields are kept,
  and the `error` text of the no-samples event is kept verbatim.
* Wall-clock timestamps (`new Date().toISOString()`) are elided from the
  trajectory record.
-/

/-- One score map, `{ [metric: string]: number }` in the source. -/
def MetricScores : Type := List (String × ℚ)

instance : DecidableEq MetricScores := by
  unfold MetricScores
  infer_instance

/-- Read `scores[metric] ?? 0`, as in `dominates`. -/
def getMetric (scores : MetricScores) (metric : String) : ℚ :=
  (scores.lookup metric).getD 0

/-- Read `scores[metric]` with `undefined` as `none`, as in `evaluateBatch`. -/
def lookupMetric (scores : MetricScores) (metric : String) : Option ℚ :=
  scores.lookup metric

/-- Content of a sample message: a plain string or an array of parts, of which
only an optional `text` field is ever read by the optimizer. -/
inductive SampleContent where
  | str (s : String)
  | parts (l : List (Option String))
deriving DecidableEq

/-- A message of a stored sample (`Sample.messages` element). -/
structure SampleMsg where
  role : String
  content : SampleContent
deriving DecidableEq

/-- A stored conversation sample (`Sample` in `optimizer-types`). -/
structure Sample where
  id : String
  messages : List SampleMsg
deriving DecidableEq

/-- A tool call part recorded in a generated trajectory. -/
structure ToolCall where
  toolCallId : String
  toolName : String
deriving DecidableEq

/-- A tool result part recorded in a generated trajectory. -/
structure ToolResult where
  toolCallId : String
  toolName : String
deriving DecidableEq

/-- Content of a generated-trajectory message: plain text, a tool-call part
array, or a tool-result part array. -/
inductive TContent where
  | text (s : String)
  | toolCalls (l : List ToolCall)
  | toolResults (l : List ToolResult)
deriving DecidableEq

/-- A message of a generated trajectory. -/
structure TMsg where
  role : String
  content : TContent
deriving DecidableEq

/-- A generated trajectory (`Trajectory` in `lib/metrics.ts`; the wall-clock
`timestamp` field is elided). -/
structure Trajectory where
  id : String
  messages : List TMsg
deriving DecidableEq

/-- Extraction of the user input in `generateTrajectoryForSample`:
`sample.messages.find(m => m.role === "user")`, then the content itself if it
is a string, else `content?.[0]?.text || ""`. -/
def extractUserInput (sample : Sample) : String :=
  match sample.messages.find? (fun m => m.role = "user") with
  | none => ""
  | some m =>
    match m.content with
    | .str s => s
    | .parts l => ((l.headD none).getD "")

/-- One step of a `generateText` result (`result.steps` element). An absent
`step.text` is the empty string, matching JS falsiness of `""`. -/
structure GenStep where
  toolCalls : List ToolCall
  toolResults : List ToolResult
  text : String
deriving DecidableEq

/-- A `generateText` result: steps plus the final `result.text`. -/
structure TextGenResult where
  steps : List GenStep
  text : String
deriving DecidableEq

/-- Messages contributed by one step of the text-mode loop of
`generateTrajectoryForSample`: a `tool-call` assistant turn and one `tool`
turn per tool result when tool calls occurred, then an assistant text turn
when `step.text` is truthy. -/
def stepMessages (step : GenStep) : List TMsg :=
  (if step.toolCalls.isEmpty then []
   else
     TMsg.mk "assistant" (TContent.toolCalls step.toolCalls) ::
       step.toolResults.map (fun tr => TMsg.mk "tool" (TContent.toolResults [tr])))
  ++ (if step.text = "" then [] else [TMsg.mk "assistant" (TContent.text step.text)])

/-- Message list of the text-mode success path: the user message, every step's
contribution, and — when nothing else was produced — a final assistant turn
carrying `result.text`. -/
def textPathMessages (userInput : String) (result : TextGenResult) : List TMsg :=
  let predictedMessages :=
    TMsg.mk "user" (TContent.text userInput) :: (result.steps.map stepMessages).flatten
  if predictedMessages.length = 1 then
    predictedMessages ++ [TMsg.mk "assistant" (TContent.text result.text)]
  else predictedMessages

/-- The well-known error marker of the catch branch. -/
def errorMarker : String := "[Error generating response]"

/-- Message list of the catch branch of `generateTrajectoryForSample`. -/
def errorMessages (userInput : String) : List TMsg :=
  [TMsg.mk "user" (TContent.text userInput),
   TMsg.mk "assistant" (TContent.text errorMarker)]

/-- `generateTrajectoryForSample(sample, prompt, model, useStructuredOutput,
schema)`.  The branch condition is `useStructuredOutput && schema` (JS
truthiness of the loaded schema, i.e. `schema.isSome`).  `objResult` is the
outcome of the `generateObject` call (`.ok s` carrying
`JSON.stringify(result.object, null, 2)`), `textResult` the outcome of the
`generateText` call; `.error ()` is a thrown provider error, handled by the
catch branch.  The function is total: it never throws. -/
def generateTrajectoryForSample (sample : Sample) (_prompt : String)
    (useStructuredOutput : Bool) (schema : Option Unit)
    (objResult : Except Unit String) (textResult : Except Unit TextGenResult) :
    Trajectory :=
  let userInput := extractUserInput sample
  let predictedMessages :=
    if useStructuredOutput && schema.isSome then
      match objResult with
      | .ok json =>
          [TMsg.mk "user" (TContent.text userInput),
           TMsg.mk "assistant" (TContent.text json)]
      | .error _ => errorMessages userInput
    else
      match textResult with
      | .ok result => textPathMessages userInput result
      | .error _ => errorMessages userInput
  { id := "predicted-" ++ sample.id, messages := predictedMessages }

/-- Result of `judgeAndScoreSample` for one sample (the fields of
`evaluateSampleWithPrompt`'s return value). -/
structure SampleEvalResult where
  metrics : MetricScores
  overallScore : ℚ
  detailedFeedback : String
  suggestedImprovements : String
deriving DecidableEq

/-- Result of `evaluateBatch`. -/
structure BatchEval where
  metrics : MetricScores
  overallScore : ℚ
  suggestions : List String
  feedbacks : List String
deriving DecidableEq

/-- The zero result returned by `evaluateBatch` for an empty batch. -/
def emptyBatchEval : BatchEval :=
  { metrics := [], overallScore := 0, suggestions := [], feedbacks := [] }

/-- `evaluateBatch(samples, prompt, …)`: map every sample through
generate-then-judge (`evalOne`, the composition fixed below in
`evalSampleWithPrompt`), average each selected metric over the samples where
it is present, and average the per-sample overall scores over all samples.
An empty batch returns zero scores. -/
def evaluateBatch (selectedMetrics : List String)
    (evalOne : Sample → SampleEvalResult) (samples : List Sample) : BatchEval :=
  if samples.length = 0 then emptyBatchEval
  else
    let results := samples.map evalOne
    let aggregatedMetrics : MetricScores :=
      selectedMetrics.filterMap (fun metric =>
        let values := results.filterMap (fun r => lookupMetric r.metrics metric)
        if values.length = 0 then none
        else some (metric, values.sum / (values.length : ℚ)))
    let overallScore :=
      (results.map (fun r => r.overallScore)).sum / (results.length : ℚ)
    { metrics := aggregatedMetrics,
      overallScore := overallScore,
      suggestions := results.map (fun r => r.suggestedImprovements),
      feedbacks := results.map (fun r => r.detailedFeedback) }

/-- JavaScript `String.prototype.trim`, written over the character list so it
unfolds by structural recursion. -/
def jsTrim (s : String) : String :=
  ⟨((s.data.dropWhile Char.isWhitespace).reverse.dropWhile Char.isWhitespace).reverse⟩

/-- The meta-prompt built by `improvePrompt` (template text abbreviated to its
skeleton; the consolidation delimiters are verbatim). -/
def improvementPromptText (currentPrompt : String)
    (suggestions feedbacks : List String) : String :=
  let consolidatedSuggestions := String.intercalate "\n\n---\n\n" suggestions
  let consolidatedFeedbacks := String.intercalate "\n\n---\n\n" feedbacks
  "You are an expert prompt engineer. Improve the following prompt based on evaluation feedback.\n\nCURRENT PROMPT:\n\"\"\"\n"
    ++ currentPrompt
    ++ "\n\"\"\"\n\nEVALUATION FEEDBACKS FROM BATCH:\n"
    ++ consolidatedFeedbacks
    ++ "\n\nSUGGESTED IMPROVEMENTS FROM BATCH:\n"
    ++ consolidatedSuggestions
    ++ "\n\nAnalyze all the feedback and suggestions above. Then write an IMPROVED version of the prompt. Return ONLY the improved prompt text, nothing else."

/-- `improvePrompt(currentPrompt, suggestions, feedbacks, reflectionModel)`:
call the reflection model on the meta-prompt (`reflCall` is the `generateText`
outcome as a function of the meta-prompt); on success return the trimmed text,
on a thrown error return the current prompt unchanged.  No event is emitted in
either branch — the catch branch only writes to `console.error`. -/
def improvePrompt (reflCall : String → Except Unit String)
    (currentPrompt : String) (suggestions feedbacks : List String) : String :=
  match reflCall (improvementPromptText currentPrompt suggestions feedbacks) with
  | .ok text => jsTrim text
  | .error _ => currentPrompt

/-- `dominates(a, b, selectedMetrics)`: `a[m] ?? 0` is at least `b[m] ?? 0` on
every selected metric, strictly greater on at least one.  The source loop
returns `false` at the first metric where `a` is worse and otherwise latches
`strictlyBetterInOne`; that is exactly this conjunction. -/
def dominates (a b : MetricScores) (selectedMetrics : List String) : Bool :=
  selectedMetrics.all (fun metric => getMetric b metric ≤ getMetric a metric) &&
  selectedMetrics.any (fun metric => getMetric b metric < getMetric a metric)

/-- A prompt candidate (`PromptCandidate` in `optimizer-types`). -/
structure PromptCandidate where
  id : String
  prompt : String
  metrics : MetricScores
  overallScore : ℚ
  bestForExamples : List String
deriving DecidableEq

/-- `updateParetoFrontier(collection, newCandidate, selectedMetrics)`: keep
every existing candidate not dominated by the new one (in order), and append
the new candidate iff no existing candidate dominates it. -/
def updateParetoFrontier (collection : List PromptCandidate)
    (newCandidate : PromptCandidate) (selectedMetrics : List String) :
    List PromptCandidate :=
  let nonDominated := collection.filter
    (fun existing => !(dominates newCandidate.metrics existing.metrics selectedMetrics))
  let newCandidateIsNonDominated := collection.all
    (fun existing => !(dominates existing.metrics newCandidate.metrics selectedMetrics))
  if newCandidateIsNonDominated then nonDominated ++ [newCandidate]
  else nonDominated

/-- `selectPrompt(collection)`: `collection.reduce` keeping the candidate with
the strictly larger `overallScore`.  JavaScript `Array.prototype.reduce`
throws on an empty array; that impossible case is modelled as `none`. -/
def selectPrompt : List PromptCandidate → Option PromptCandidate
  | [] => none
  | first :: rest =>
      some (rest.foldl
        (fun best current =>
          if best.overallScore < current.overallScore then current else best)
        first)

/-- The request body of the optimize route (`OptimizeRequest`). -/
structure OptimizeRequest where
  optimizationModel : String
  reflectionModel : String
  batchSize : ℕ
  numRollouts : ℕ
  selectedMetrics : List String
  useStructuredOutput : Bool
deriving DecidableEq

/-- The free inputs of a run: outcomes of every LLM call the loop makes.
`objCall`/`textCall` give the generation outcome for a prompt and sample,
`judge` gives `judgeAndScoreSample`'s structured result (its body, an LLM
call, lives in `lib/metrics.ts`), and `reflCall` gives the reflection model's
`generateText` outcome on a meta-prompt. -/
structure LLMEnv where
  objCall : String → Sample → Except Unit String
  textCall : String → Sample → Except Unit TextGenResult
  judge : Sample → Trajectory → SampleEvalResult
  reflCall : String → Except Unit String

/-- `evaluateSampleWithPrompt`: generate a trajectory with the current prompt,
then judge it. -/
def evalSampleWithPrompt (env : LLMEnv) (useStructuredOutput : Bool)
    (schema : Option Unit) (prompt : String) (sample : Sample) :
    SampleEvalResult :=
  env.judge sample
    (generateTrajectoryForSample sample prompt useStructuredOutput schema
      (env.objCall prompt sample) (env.textCall prompt sample))

/-- One progress object passed to `sendProgress`.  Fields absent from a given
emission keep their default; `message` log strings are elided. -/
structure Event where
  type : String
  iteration : ℕ
  accepted : Bool := false
  collectionSize : ℕ := 0
  bestScore : ℚ := 0
  error : String := ""
  batchScore : ℚ := 0
  candidatePrompt : String := ""
  metrics : MetricScores := []
  finalPrompt : String := ""
  collection : List PromptCandidate := []
deriving DecidableEq

/-- The mutable state of the main GEPA loop: the candidate collection and the
running best score. -/
structure LoopState where
  collection : List PromptCandidate
  bestScore : ℚ
deriving DecidableEq

/-- Ghost observation of one loop iteration, recording every intermediate
value the body computes alongside the emitted events. -/
structure IterationRecord where
  iteration : ℕ
  collectionBefore : List PromptCandidate
  selectedCandidate : PromptCandidate
  batch : List Sample
  batchEval : BatchEval
  improvedPrompt : String
  improvedEval : BatchEval
  accepted : Bool
  newCandidate : Option PromptCandidate
  collectionAfter : List PromptCandidate
  bestScoreAfter : ℚ
  events : List Event
deriving DecidableEq

/-- A placeholder candidate for the impossible empty-collection branch. -/
def dummyCandidate : PromptCandidate :=
  { id := "", prompt := "", metrics := [], overallScore := 0, bestForExamples := [] }

/-- Batch sampling with replacement: `batchSize` draws of
`allSamples[Math.floor(Math.random() * allSamples.length)]`, the random
stream positions starting at `start`. -/
def drawBatch (allSamples : List Sample) (randoms : ℕ → ℕ) (start n : ℕ) :
    List Sample :=
  (List.range n).map
    (fun k => allSamples.getD (randoms (start + k) % allSamples.length) ⟨"", []⟩)

/-- One iteration of the main GEPA loop (`for iteration = 1..numRollouts`):
select the current-best candidate, draw a fresh batch, evaluate the parent and
the improved prompt on the same batch, accept on strict improvement.  The
`selectPrompt` result is `none` only on an empty collection, where the JS
`reduce` would throw; that unreachable branch leaves the state unchanged. -/
def gepaIteration (cfg : OptimizeRequest) (env : LLMEnv) (schema : Option Unit)
    (allSamples : List Sample) (randoms : ℕ → ℕ)
    (st : LoopState) (iteration : ℕ) : LoopState × IterationRecord :=
  match selectPrompt st.collection with
  | none =>
      (st,
        { iteration := iteration, collectionBefore := st.collection,
          selectedCandidate := dummyCandidate, batch := [],
          batchEval := emptyBatchEval, improvedPrompt := "",
          improvedEval := emptyBatchEval, accepted := false,
          newCandidate := none, collectionAfter := st.collection,
          bestScoreAfter := st.bestScore, events := [] })
  | some selectedCandidate =>
      let batch := drawBatch allSamples randoms (iteration * cfg.batchSize) cfg.batchSize
      let evalOne := evalSampleWithPrompt env cfg.useStructuredOutput schema
      let batchEval := evaluateBatch cfg.selectedMetrics (evalOne selectedCandidate.prompt) batch
      let improvedPrompt :=
        improvePrompt env.reflCall selectedCandidate.prompt batchEval.suggestions batchEval.feedbacks
      let improvedEval := evaluateBatch cfg.selectedMetrics (evalOne improvedPrompt) batch
      if batchEval.overallScore < improvedEval.overallScore then
        let newCandidate : PromptCandidate :=
          { id := "candidate-" ++ toString iteration, prompt := improvedPrompt,
            metrics := improvedEval.metrics,
            overallScore := improvedEval.overallScore, bestForExamples := [] }
        let updatedCollection := updateParetoFrontier st.collection newCandidate cfg.selectedMetrics
        let bestScore :=
          if st.bestScore < improvedEval.overallScore then improvedEval.overallScore
          else st.bestScore
        let ev : Event :=
          { type := "iteration", iteration := iteration,
            candidatePrompt := improvedPrompt,
            batchScore := improvedEval.overallScore, accepted := true,
            collectionSize := updatedCollection.length, bestScore := bestScore,
            metrics := improvedEval.metrics }
        (⟨updatedCollection, bestScore⟩,
          { iteration := iteration, collectionBefore := st.collection,
            selectedCandidate := selectedCandidate, batch := batch,
            batchEval := batchEval, improvedPrompt := improvedPrompt,
            improvedEval := improvedEval, accepted := true,
            newCandidate := some newCandidate,
            collectionAfter := updatedCollection, bestScoreAfter := bestScore,
            events := [ev] })
      else
        let ev : Event :=
          { type := "iteration", iteration := iteration,
            batchScore := batchEval.overallScore, accepted := false,
            collectionSize := st.collection.length, bestScore := st.bestScore }
        (st,
          { iteration := iteration, collectionBefore := st.collection,
            selectedCandidate := selectedCandidate, batch := batch,
            batchEval := batchEval, improvedPrompt := improvedPrompt,
            improvedEval := improvedEval, accepted := false,
            newCandidate := none, collectionAfter := st.collection,
            bestScoreAfter := st.bestScore, events := [ev] })

/-- The main loop over the given iteration indices, threading the state and
collecting the per-iteration records in order. -/
def runIterations (cfg : OptimizeRequest) (env : LLMEnv) (schema : Option Unit)
    (allSamples : List Sample) (randoms : ℕ → ℕ) :
    LoopState → List ℕ → LoopState × List IterationRecord
  | st, [] => (st, [])
  | st, i :: rest =>
      let step := gepaIteration cfg env schema allSamples randoms st i
      let tail := runIterations cfg env schema allSamples randoms step.1 rest
      (tail.1, step.2 :: tail.2)

/-- The observable outcome of `runGEPA`: the events sent to the sink in order,
plus ghost observations of the seed evaluation, the per-iteration records and
the final state. -/
structure RunResult where
  events : List Event
  seedEval : Option BatchEval
  seedCandidate : Option PromptCandidate
  iterations : List IterationRecord
  finalCollection : List PromptCandidate
  finalCandidate : Option PromptCandidate
  bestScore : ℚ
deriving DecidableEq

/-- The error event emitted when no samples are loaded (its `error` text is
verbatim from the source). -/
def noSamplesEvent : Event :=
  { type := "error", iteration := 0, accepted := false, collectionSize := 0,
    bestScore := 0,
    error := "No samples found. Please add samples with feedback first." }

/-- The schema in scope for the run:
`config.useStructuredOutput ? await loadSchema() : null`, where `loadedSchema`
is the outcome of `loadSchema()` (`none` when `data/schema.json` is absent or
unparsable). -/
def gepaSchema (cfg : OptimizeRequest) (loadedSchema : Option Unit) : Option Unit :=
  if cfg.useStructuredOutput then loadedSchema else none

/-- The seed evaluation: the seed prompt evaluated on the initial random
batch. -/
def initialEval (cfg : OptimizeRequest) (env : LLMEnv) (loadedSchema : Option Unit)
    (allSamples : List Sample) (seedPrompt : String) (randoms : ℕ → ℕ) : BatchEval :=
  evaluateBatch cfg.selectedMetrics
    (evalSampleWithPrompt env cfg.useStructuredOutput (gepaSchema cfg loadedSchema) seedPrompt)
    (drawBatch allSamples randoms 0 cfg.batchSize)

/-- The candidate seeded into the collection from the seed evaluation. -/
def seedCandidateOf (cfg : OptimizeRequest) (env : LLMEnv) (loadedSchema : Option Unit)
    (allSamples : List Sample) (seedPrompt : String) (randoms : ℕ → ℕ) : PromptCandidate :=
  { id := "seed", prompt := seedPrompt,
    metrics := (initialEval cfg env loadedSchema allSamples seedPrompt randoms).metrics,
    overallScore := (initialEval cfg env loadedSchema allSamples seedPrompt randoms).overallScore,
    bestForExamples := [] }

/-- The loop state entering iteration 1: the singleton seed collection and the
seed score as running best. -/
def seedLoopState (cfg : OptimizeRequest) (env : LLMEnv) (loadedSchema : Option Unit)
    (allSamples : List Sample) (seedPrompt : String) (randoms : ℕ → ℕ) : LoopState :=
  ⟨[seedCandidateOf cfg env loadedSchema allSamples seedPrompt randoms],
    (initialEval cfg env loadedSchema allSamples seedPrompt randoms).overallScore⟩

/-- The start event (structural fields of the first `sendProgress` call). -/
def startEvent : Event :=
  { type := "start", iteration := 0, collectionSize := 1, bestScore := 0,
    accepted := false }

/-- `runGEPA(config, sendProgress)`.  If no samples were loaded, a single
error event is emitted and the run terminates before the start event, the
seed evaluation and any candidate.  Otherwise: emit `start`, evaluate the
seed prompt on an initial random batch, seed the collection, run
`numRollouts` iterations, and emit `complete` with the best candidate of the
final collection. -/
def runGEPA (cfg : OptimizeRequest) (env : LLMEnv) (loadedSchema : Option Unit)
    (allSamples : List Sample) (seedPrompt : String) (randoms : ℕ → ℕ) :
    RunResult :=
  if allSamples.length = 0 then
    { events := [noSamplesEvent], seedEval := none, seedCandidate := none,
      iterations := [], finalCollection := [], finalCandidate := none,
      bestScore := 0 }
  else
    let looped := runIterations cfg env (gepaSchema cfg loadedSchema) allSamples randoms
      (seedLoopState cfg env loadedSchema allSamples seedPrompt randoms)
      ((List.range cfg.numRollouts).map (fun i => i + 1))
    let bestCandidate := selectPrompt looped.1.collection
    let completeEvent : Event :=
      { type := "complete", iteration := cfg.numRollouts,
        finalPrompt := (bestCandidate.map (fun c => c.prompt)).getD "",
        bestScore := looped.1.bestScore,
        collectionSize := looped.1.collection.length,
        collection := looped.1.collection, accepted := true }
    { events := startEvent :: ((looped.2.map (fun r => r.events)).flatten ++ [completeEvent]),
      seedEval := some (initialEval cfg env loadedSchema allSamples seedPrompt randoms),
      seedCandidate := some (seedCandidateOf cfg env loadedSchema allSamples seedPrompt randoms),
      iterations := looped.2, finalCollection := looped.1.collection,
      finalCandidate := bestCandidate, bestScore := looped.1.bestScore }

/-- Dummy iteration record (default for list reads at unreachable indices). -/
def dummyIterationRecord : IterationRecord :=
  { iteration := 0, collectionBefore := [], selectedCandidate := dummyCandidate,
    batch := [], batchEval := emptyBatchEval, improvedPrompt := "",
    improvedEval := emptyBatchEval, accepted := false, newCandidate := none,
    collectionAfter := [], bestScoreAfter := 0, events := [] }

/-- Fixture sample with one user message. -/
def sampleA : Sample := ⟨"s1", [⟨"user", SampleContent.str "hello"⟩]⟩

/-- Fixture sample with one user message. -/
def sampleB : Sample := ⟨"s2", [⟨"user", SampleContent.str "world"⟩]⟩

/-- Fixture sample containing no message with role `user`. -/
def sampleNoUser : Sample := ⟨"nu", [⟨"assistant", SampleContent.str "hi there"⟩]⟩

/-- Fixture sample list. -/
def cexSamples : List Sample := [sampleA, sampleB]

/-- Fixture request: batch size 1, one rollout, single `accuracy` metric. -/
def cexCfg : OptimizeRequest :=
  ⟨"task-model", "refl-model", 1, 1, ["accuracy"], false⟩

/-- Last assistant text of a trajectory (helper for the judge fixtures; with
`textCall` echoing the system prompt it identifies the evaluated prompt). -/
def lastText (traj : Trajectory) : String :=
  match traj.messages.getLast? with
  | some ⟨_, TContent.text t⟩ => t
  | _ => ""

/-- Fixture judge: scores depend on the sample and the evaluated prompt. -/
def cexJudge (sample : Sample) (traj : Trajectory) : SampleEvalResult :=
  if sample.id = "s1" ∧ lastText traj = "SEED" then
    ⟨[("accuracy", 1/2)], 9/10, "fb1", "sg1"⟩
  else if sample.id = "s2" ∧ lastText traj = "SEED" then
    ⟨[("accuracy", 1/2)], 1/5, "fb2", "sg2"⟩
  else if sample.id = "s2" ∧ lastText traj = "P2" then
    ⟨[("accuracy", 3/5)], 3/10, "fb3", "sg3"⟩
  else ⟨[], 0, "", ""⟩

/-- Fixture environment: text generation echoes the system prompt, the
reflection model proposes the prompt `P2`. -/
def cexEnv : LLMEnv :=
  { objCall := fun _ _ => .error (),
    textCall := fun prompt _ => .ok ⟨[], prompt⟩,
    judge := cexJudge,
    reflCall := fun _ => .ok "P2" }

/-- Fixture run: the seed scores 9/10 on the seed batch, iteration 1 accepts
`candidate-1` (3/10 beats the parent batch score 1/5) whose metrics dominate
the seed, so the frontier update removes the seed. -/
def cexRun : RunResult := runGEPA cexCfg cexEnv none cexSamples "SEED" (fun n => n)

/-- The single iteration record of `cexRun`. -/
def cexIter1 : IterationRecord := cexRun.iterations.getD 0 dummyIterationRecord

/-- Fixture environment whose reflection call always throws. -/
def reflFailEnv : LLMEnv := { cexEnv with reflCall := fun _ => .error () }

/-- Fixture run with a failing reflection model: iteration 1 keeps the seed
prompt and is rejected. -/
def reflFailRun : RunResult :=
  runGEPA cexCfg reflFailEnv none cexSamples "SEED" (fun n => n)

/-- Structured-output request with zero rollouts. -/
def schemaCfg : OptimizeRequest :=
  ⟨"task-model", "refl-model", 1, 0, ["accuracy"], true⟩

/-- Fixture run with `useStructuredOutput = true` and no loadable schema. -/
def schemaRun : RunResult :=
  runGEPA schemaCfg cexEnv none [sampleA] "SEED" (fun n => n)

/-- Judge fixture scoring every trajectory 7/10 on accuracy. -/
def constJudge (_ : Sample) (_ : Trajectory) : SampleEvalResult :=
  ⟨[("accuracy", 7/10)], 7/10, "fbn", "sgn"⟩

/-- Fixture environment built around `constJudge`. -/
def constEnv : LLMEnv :=
  { objCall := fun _ _ => .error (),
    textCall := fun _ _ => .ok ⟨[], "resp"⟩,
    judge := constJudge,
    reflCall := fun _ => .ok "P2" }

/-- Two-dimension candidate strong on `tone` (spec scenario 4 style). -/
def candTone : PromptCandidate :=
  ⟨"A", "pa", [("tone", 9/10), ("accuracy", 1/2)], 1/2, []⟩

/-- Two-dimension candidate strong on `accuracy`. -/
def candAcc : PromptCandidate :=
  ⟨"B", "pb", [("tone", 1/2), ("accuracy", 9/10)], 7/10, []⟩

/-- The two fixture dimensions. -/
def twoDims : List String := ["tone", "accuracy"]

/-- No two members of the collection dominate each other (stated over all
ordered pairs; dominance is irreflexive, so the diagonal is harmless). -/
def NoMutualDom (c : List PromptCandidate) (selectedMetrics : List String) : Prop :=
  ∀ x ∈ c, ∀ y ∈ c, dominates x.metrics y.metrics selectedMetrics = false

theorem dominates_self (a : MetricScores) (sm : List String) :
    dominates a a sm = false := by
  simp [dominates]

theorem dominates_asymm {a b : MetricScores} {sm : List String}
    (h : dominates a b sm = true) : dominates b a sm = false := by
  unfold dominates at h ⊢
  rw [Bool.and_eq_true] at h
  obtain ⟨_, hany⟩ := h
  rw [List.any_eq_true] at hany
  obtain ⟨m, hm, hlt⟩ := hany
  rw [decide_eq_true_eq] at hlt
  apply Bool.and_eq_false_iff.mpr
  left
  rw [List.all_eq_false]
  exact ⟨m, hm, by simpa using not_le_of_lt hlt⟩

theorem mem_updateParetoFrontier {c : List PromptCandidate}
    {n z : PromptCandidate} {sm : List String}
    (hz : z ∈ updateParetoFrontier c n sm) :
    (z ∈ c ∧ dominates n.metrics z.metrics sm = false) ∨
      (z = n ∧ ∀ e ∈ c, dominates e.metrics n.metrics sm = false) := by
  unfold updateParetoFrontier at hz
  by_cases hflag :
      c.all (fun existing => !(dominates existing.metrics n.metrics sm)) = true
  · rw [if_pos hflag, List.mem_append] at hz
    rcases hz with hz | hz
    · rw [List.mem_filter] at hz
      exact Or.inl ⟨hz.1, by simpa using hz.2⟩
    · refine Or.inr ⟨by simpa using hz, fun e he => ?_⟩
      rw [List.all_eq_true] at hflag
      simpa using hflag e he
  · rw [if_neg hflag, List.mem_filter] at hz
    exact Or.inl ⟨hz.1, by simpa using hz.2⟩

theorem updateParetoFrontier_ne_nil (c : List PromptCandidate)
    (n : PromptCandidate) (sm : List String) :
    updateParetoFrontier c n sm ≠ [] := by
  unfold updateParetoFrontier
  by_cases hflag :
      c.all (fun existing => !(dominates existing.metrics n.metrics sm)) = true
  · rw [if_pos hflag]
    simp
  · rw [if_neg hflag]
    rw [Bool.not_eq_true, List.all_eq_false] at hflag
    obtain ⟨e, he, hdome⟩ := hflag
    have hdome : dominates e.metrics n.metrics sm = true := by
      simpa using hdome
    intro hnil
    have hmem : e ∈ c.filter
        (fun existing => !(dominates n.metrics existing.metrics sm)) := by
      rw [List.mem_filter]
      exact ⟨he, by simp [dominates_asymm hdome]⟩
    rw [hnil] at hmem
    exact absurd hmem (List.not_mem_nil e)

theorem noMutualDom_updateParetoFrontier {c : List PromptCandidate}
    {n : PromptCandidate} {sm : List String} (h : NoMutualDom c sm) :
    NoMutualDom (updateParetoFrontier c n sm) sm := by
  intro x hx y hy
  rcases mem_updateParetoFrontier hx with ⟨hxc, _⟩ | ⟨hxn, hxall⟩ <;>
    rcases mem_updateParetoFrontier hy with ⟨hyc, hyd⟩ | ⟨hyn, hyall⟩
  · exact h x hxc y hyc
  · subst hyn
    exact hyall x hxc
  · subst hxn
    exact hyd
  · subst hxn; subst hyn
    exact dominates_self _ _

theorem selectPrompt_isSome {c : List PromptCandidate} (h : c ≠ []) :
    (selectPrompt c).isSome = true := by
  cases c with
  | nil => exact absurd rfl h
  | cons first rest => simp [selectPrompt]

theorem selectPrompt_foldl_mem (rest : List PromptCandidate)
    (first : PromptCandidate) :
    (rest.foldl
        (fun best current =>
          if best.overallScore < current.overallScore then current else best)
        first) = first ∨
      (rest.foldl
        (fun best current =>
          if best.overallScore < current.overallScore then current else best)
        first) ∈ rest := by
  induction rest generalizing first with
  | nil => exact Or.inl rfl
  | cons y ys ih =>
    rw [List.foldl_cons]
    rcases ih (if first.overallScore < y.overallScore then y else first) with h | h
    · rw [h]
      by_cases hlt : first.overallScore < y.overallScore
      · rw [if_pos hlt]; exact Or.inr (List.mem_cons_self y ys)
      · rw [if_neg hlt]; exact Or.inl rfl
    · exact Or.inr (List.mem_cons_of_mem y h)

theorem selectPrompt_foldl_le (rest : List PromptCandidate)
    (first : PromptCandidate) :
    first.overallScore ≤
        (rest.foldl
          (fun best current =>
            if best.overallScore < current.overallScore then current else best)
          first).overallScore ∧
      ∀ x ∈ rest,
        x.overallScore ≤
          (rest.foldl
            (fun best current =>
              if best.overallScore < current.overallScore then current else best)
            first).overallScore := by
  induction rest generalizing first with
  | nil => exact ⟨le_refl _, by simp⟩
  | cons y ys ih =>
    rw [List.foldl_cons]
    have hfy : first.overallScore ≤
        (if first.overallScore < y.overallScore then y else first).overallScore := by
      by_cases hlt : first.overallScore < y.overallScore
      · rw [if_pos hlt]; exact le_of_lt hlt
      · rw [if_neg hlt]
    have hyy : y.overallScore ≤
        (if first.overallScore < y.overallScore then y else first).overallScore := by
      by_cases hlt : first.overallScore < y.overallScore
      · rw [if_pos hlt]
      · rw [if_neg hlt]; exact le_of_not_lt hlt
    obtain ⟨ih1, ih2⟩ := ih (if first.overallScore < y.overallScore then y else first)
    refine ⟨le_trans hfy ih1, fun x hx => ?_⟩
    rcases List.mem_cons.mp hx with hxy | hxys
    · subst hxy
      exact le_trans hyy ih1
    · exact ih2 x hxys

theorem selectPrompt_mem_max {c : List PromptCandidate} {m : PromptCandidate}
    (h : selectPrompt c = some m) :
    m ∈ c ∧ ∀ x ∈ c, x.overallScore ≤ m.overallScore := by
  cases c with
  | nil => exact absurd h (by simp [selectPrompt])
  | cons first rest =>
    rw [selectPrompt, Option.some_inj] at h
    subst h
    constructor
    · rcases selectPrompt_foldl_mem rest first with h | h
      · rw [h]; exact List.mem_cons_self first rest
      · exact List.mem_cons_of_mem first h
    · intro x hx
      obtain ⟨h1, h2⟩ := selectPrompt_foldl_le rest first
      rcases List.mem_cons.mp hx with hxf | hxr
      · subst hxf; exact h1
      · exact h2 x hxr

theorem gepaIteration_iteration (cfg : OptimizeRequest) (env : LLMEnv)
    (schema : Option Unit) (samples : List Sample) (randoms : ℕ → ℕ)
    (st : LoopState) (i : ℕ) :
    (gepaIteration cfg env schema samples randoms st i).2.iteration = i := by
  unfold gepaIteration
  cases selectPrompt st.collection with
  | none => rfl
  | some sel =>
    dsimp only
    split
    · rfl
    · rfl

theorem gepaIteration_collectionBefore (cfg : OptimizeRequest) (env : LLMEnv)
    (schema : Option Unit) (samples : List Sample) (randoms : ℕ → ℕ)
    (st : LoopState) (i : ℕ) :
    (gepaIteration cfg env schema samples randoms st i).2.collectionBefore =
      st.collection := by
  unfold gepaIteration
  cases selectPrompt st.collection with
  | none => rfl
  | some sel =>
    dsimp only
    split
    · rfl
    · rfl

theorem gepaIteration_state (cfg : OptimizeRequest) (env : LLMEnv)
    (schema : Option Unit) (samples : List Sample) (randoms : ℕ → ℕ)
    (st : LoopState) (i : ℕ) :
    (gepaIteration cfg env schema samples randoms st i).1.collection =
      (gepaIteration cfg env schema samples randoms st i).2.collectionAfter ∧
    (gepaIteration cfg env schema samples randoms st i).1.bestScore =
      (gepaIteration cfg env schema samples randoms st i).2.bestScoreAfter := by
  unfold gepaIteration
  cases selectPrompt st.collection with
  | none => exact ⟨rfl, rfl⟩
  | some sel =>
    dsimp only
    split
    · exact ⟨rfl, rfl⟩
    · exact ⟨rfl, rfl⟩

theorem gepaIteration_accept_iff (cfg : OptimizeRequest) (env : LLMEnv)
    (schema : Option Unit) (samples : List Sample) (randoms : ℕ → ℕ)
    (st : LoopState) (i : ℕ) :
    (gepaIteration cfg env schema samples randoms st i).2.accepted = true ↔
      (gepaIteration cfg env schema samples randoms st i).2.batchEval.overallScore <
        (gepaIteration cfg env schema samples randoms st i).2.improvedEval.overallScore := by
  unfold gepaIteration
  cases selectPrompt st.collection with
  | none => simp [emptyBatchEval]
  | some sel =>
    dsimp only
    split
    · next hlt => simpa using hlt
    · next hlt => simpa using hlt

theorem gepaIteration_accepted (cfg : OptimizeRequest) (env : LLMEnv)
    (schema : Option Unit) (samples : List Sample) (randoms : ℕ → ℕ)
    (st : LoopState) (i : ℕ)
    (h : (gepaIteration cfg env schema samples randoms st i).2.accepted = true) :
    (gepaIteration cfg env schema samples randoms st i).2.newCandidate =
      some { id := "candidate-" ++ toString i,
             prompt := (gepaIteration cfg env schema samples randoms st i).2.improvedPrompt,
             metrics := (gepaIteration cfg env schema samples randoms st i).2.improvedEval.metrics,
             overallScore :=
               (gepaIteration cfg env schema samples randoms st i).2.improvedEval.overallScore,
             bestForExamples := [] } ∧
    (gepaIteration cfg env schema samples randoms st i).2.collectionAfter =
      updateParetoFrontier st.collection
        { id := "candidate-" ++ toString i,
          prompt := (gepaIteration cfg env schema samples randoms st i).2.improvedPrompt,
          metrics := (gepaIteration cfg env schema samples randoms st i).2.improvedEval.metrics,
          overallScore :=
            (gepaIteration cfg env schema samples randoms st i).2.improvedEval.overallScore,
          bestForExamples := [] } cfg.selectedMetrics := by
  revert h
  unfold gepaIteration
  cases selectPrompt st.collection with
  | none => intro h; simp at h
  | some sel =>
    dsimp only
    split
    · intro _; exact ⟨rfl, rfl⟩
    · intro h; simp at h

theorem gepaIteration_rejected (cfg : OptimizeRequest) (env : LLMEnv)
    (schema : Option Unit) (samples : List Sample) (randoms : ℕ → ℕ)
    (st : LoopState) (i : ℕ)
    (h : (gepaIteration cfg env schema samples randoms st i).2.accepted = false) :
    (gepaIteration cfg env schema samples randoms st i).2.newCandidate = none ∧
    (gepaIteration cfg env schema samples randoms st i).2.collectionAfter =
      st.collection := by
  revert h
  unfold gepaIteration
  cases selectPrompt st.collection with
  | none => intro _; exact ⟨rfl, rfl⟩
  | some sel =>
    dsimp only
    split
    · intro h; simp at h
    · intro _; exact ⟨rfl, rfl⟩

theorem gepaIteration_batchEval (cfg : OptimizeRequest) (env : LLMEnv)
    (schema : Option Unit) (samples : List Sample) (randoms : ℕ → ℕ)
    (st : LoopState) (i : ℕ) :
    (gepaIteration cfg env schema samples randoms st i).2.batchEval =
      evaluateBatch cfg.selectedMetrics
        (evalSampleWithPrompt env cfg.useStructuredOutput schema
          (gepaIteration cfg env schema samples randoms st i).2.selectedCandidate.prompt)
        (gepaIteration cfg env schema samples randoms st i).2.batch ∧
    (gepaIteration cfg env schema samples randoms st i).2.improvedEval =
      evaluateBatch cfg.selectedMetrics
        (evalSampleWithPrompt env cfg.useStructuredOutput schema
          (gepaIteration cfg env schema samples randoms st i).2.improvedPrompt)
        (gepaIteration cfg env schema samples randoms st i).2.batch := by
  unfold gepaIteration
  cases selectPrompt st.collection with
  | none =>
    constructor
    · show emptyBatchEval = evaluateBatch _ _ []
      rw [evaluateBatch]
      simp
    · show emptyBatchEval = evaluateBatch _ _ []
      rw [evaluateBatch]
      simp
  | some sel =>
    dsimp only
    split
    · exact ⟨rfl, rfl⟩
    · exact ⟨rfl, rfl⟩

theorem gepaIteration_events (cfg : OptimizeRequest) (env : LLMEnv)
    (schema : Option Unit) (samples : List Sample) (randoms : ℕ → ℕ)
    (st : LoopState) (i : ℕ) :
    ∀ e ∈ (gepaIteration cfg env schema samples randoms st i).2.events,
      e.type = "iteration" := by
  unfold gepaIteration
  cases selectPrompt st.collection with
  | none => simp
  | some sel =>
    dsimp only
    split
    · simp
    · simp

theorem gepaIteration_selected (cfg : OptimizeRequest) (env : LLMEnv)
    (schema : Option Unit) (samples : List Sample) (randoms : ℕ → ℕ)
    (st : LoopState) (i : ℕ) (h : st.collection ≠ []) :
    selectPrompt st.collection =
      some (gepaIteration cfg env schema samples randoms st i).2.selectedCandidate := by
  unfold gepaIteration
  cases hsel : selectPrompt st.collection with
  | none =>
    exfalso
    have := selectPrompt_isSome h
    rw [hsel] at this
    simp at this
  | some sel =>
    dsimp only
    split
    · rfl
    · rfl

theorem runIterations_inv (cfg : OptimizeRequest) (env : LLMEnv)
    (schema : Option Unit) (samples : List Sample) (randoms : ℕ → ℕ)
    (I : LoopState → Prop) (Q : IterationRecord → Prop)
    (hI : ∀ st i, I st → I (gepaIteration cfg env schema samples randoms st i).1)
    (hQ : ∀ st i, I st → Q (gepaIteration cfg env schema samples randoms st i).2) :
    ∀ (l : List ℕ) (st : LoopState), I st →
      I (runIterations cfg env schema samples randoms st l).1 ∧
      ∀ r ∈ (runIterations cfg env schema samples randoms st l).2, Q r := by
  intro l
  induction l with
  | nil =>
    intro st hst
    exact ⟨hst, by simp [runIterations]⟩
  | cons i rest ih =>
    intro st hst
    obtain ⟨h1, h2⟩ := ih (gepaIteration cfg env schema samples randoms st i).1
      (hI st i hst)
    rw [runIterations]
    refine ⟨h1, fun r hr => ?_⟩
    rcases List.mem_cons.mp hr with h | h
    · subst h
      exact hQ st i hst
    · exact h2 r h

theorem runIterations_iteration_map (cfg : OptimizeRequest) (env : LLMEnv)
    (schema : Option Unit) (samples : List Sample) (randoms : ℕ → ℕ) :
    ∀ (l : List ℕ) (st : LoopState),
      (runIterations cfg env schema samples randoms st l).2.map
        (fun r => r.iteration) = l := by
  intro l
  induction l with
  | nil => intro st; simp [runIterations]
  | cons i rest ih =>
    intro st
    rw [runIterations]
    simp only [List.map_cons]
    rw [gepaIteration_iteration cfg env schema samples randoms st i, ih]

theorem stepMessages_assistant (s : GenStep) (h : stepMessages s ≠ []) :
    ∃ m ∈ stepMessages s, m.role = "assistant" := by
  unfold stepMessages at h ⊢
  by_cases hc : s.toolCalls.isEmpty
  · rw [if_pos hc] at h ⊢
    by_cases ht : s.text = ""
    · rw [if_pos ht] at h
      simp at h
    · rw [if_neg ht]
      exact ⟨TMsg.mk "assistant" (TContent.text s.text), by simp⟩
  · rw [if_neg hc] at h ⊢
    exact ⟨TMsg.mk "assistant" (TContent.toolCalls s.toolCalls), by simp⟩

theorem textPathMessages_assistant (u : String) (res : TextGenResult) :
    ∃ m ∈ textPathMessages u res, m.role = "assistant" := by
  unfold textPathMessages
  by_cases hlen :
      (TMsg.mk "user" (TContent.text u) ::
        (res.steps.map stepMessages).flatten).length = 1
  · rw [if_pos hlen]
    exact ⟨TMsg.mk "assistant" (TContent.text res.text), by simp⟩
  · rw [if_neg hlen]
    have hflat : (res.steps.map stepMessages).flatten ≠ [] := by
      intro hnil
      rw [hnil] at hlen
      simp at hlen
    obtain ⟨x, hx⟩ := List.exists_mem_of_ne_nil _ hflat
    obtain ⟨lmem, hlmem, hxl⟩ := List.mem_flatten.mp hx
    obtain ⟨s, _, hsl⟩ := List.mem_map.mp hlmem
    subst hsl
    obtain ⟨m, hm, hrole⟩ :=
      stepMessages_assistant s (List.ne_nil_of_mem hxl)
    refine ⟨m, List.mem_cons_of_mem _ (List.mem_flatten.mpr ⟨_, hlmem, hm⟩), hrole⟩

/-- C4: with an empty loaded samples list, `runGEPA` emits exactly one event,
the `no samples` error (with its verbatim message), and terminates with no
seed evaluation, no iteration, no candidate — in particular no `start` and no
`complete` event. -/
theorem runGEPA_no_samples (cfg : OptimizeRequest) (env : LLMEnv)
    (loadedSchema : Option Unit) (seedPrompt : String) (randoms : ℕ → ℕ) :
    runGEPA cfg env loadedSchema [] seedPrompt randoms =
      { events := [noSamplesEvent], seedEval := none, seedCandidate := none,
        iterations := [], finalCollection := [], finalCandidate := none,
        bestScore := 0 } ∧
    noSamplesEvent.type = "error" ∧
    noSamplesEvent.error =
      "No samples found. Please add samples with feedback first." ∧
    noSamplesEvent.type ≠ "start" ∧ noSamplesEvent.type ≠ "complete" := by
  refine ⟨rfl, rfl, rfl, by simp [noSamplesEvent], by simp [noSamplesEvent]⟩

/-- C8: with `numRollouts = 0` and a non-empty sample list, the loop body
never runs: the final collection is exactly the singleton seed candidate, the
`complete` event carries the seed prompt as `finalPrompt`, and the reported
best score is the seed's batch overall score. -/
theorem runGEPA_zero_rollouts_seed_preserved (om rm : String) (bs : ℕ)
    (sm : List String) (uso : Bool) (env : LLMEnv) (ls : Option Unit)
    (samples : List Sample) (seed : String) (randoms : ℕ → ℕ)
    (h : samples.length ≠ 0) :
    (runGEPA ⟨om, rm, bs, 0, sm, uso⟩ env ls samples seed randoms).iterations = [] ∧
    (runGEPA ⟨om, rm, bs, 0, sm, uso⟩ env ls samples seed randoms).finalCollection =
      [seedCandidateOf ⟨om, rm, bs, 0, sm, uso⟩ env ls samples seed randoms] ∧
    (runGEPA ⟨om, rm, bs, 0, sm, uso⟩ env ls samples seed randoms).finalCandidate =
      some (seedCandidateOf ⟨om, rm, bs, 0, sm, uso⟩ env ls samples seed randoms) ∧
    (seedCandidateOf ⟨om, rm, bs, 0, sm, uso⟩ env ls samples seed randoms).prompt = seed ∧
    (runGEPA ⟨om, rm, bs, 0, sm, uso⟩ env ls samples seed randoms).bestScore =
      (initialEval ⟨om, rm, bs, 0, sm, uso⟩ env ls samples seed randoms).overallScore ∧
    (runGEPA ⟨om, rm, bs, 0, sm, uso⟩ env ls samples seed randoms).seedEval =
      some (initialEval ⟨om, rm, bs, 0, sm, uso⟩ env ls samples seed randoms) ∧
    (runGEPA ⟨om, rm, bs, 0, sm, uso⟩ env ls samples seed randoms).events =
      [startEvent,
       { type := "complete", iteration := 0, finalPrompt := seed,
         bestScore := (initialEval ⟨om, rm, bs, 0, sm, uso⟩ env ls samples seed randoms).overallScore,
         collectionSize := 1,
         collection := [seedCandidateOf ⟨om, rm, bs, 0, sm, uso⟩ env ls samples seed randoms],
         accepted := true }] := by
  unfold runGEPA
  rw [if_neg h]
  exact ⟨rfl, rfl, rfl, rfl, rfl, rfl, rfl⟩

theorem runGEPA_zero_rollouts_witness :
    (runGEPA ⟨"m", "r", 1, 0, ["accuracy"], false⟩ cexEnv none [sampleA] "SEED"
      (fun n => n)).iterations = [] :=
  (runGEPA_zero_rollouts_seed_preserved "m" "r" 1 ["accuracy"] false cexEnv none
    [sampleA] "SEED" (fun n => n) (by simp [sampleA])).1

/-- C6: trajectory generation is a total function (the catch branch absorbs
every model-call error).  The returned trajectory always starts with a user
message carrying the user input extracted from the sample and contains at
least one assistant turn; whenever the model call taken by the active branch
fails, the final turn is the assistant error marker
`"[Error generating response]"`. -/
theorem generateTrajectory_total_spec (sample : Sample) (prompt : String)
    (uso : Bool) (schema : Option Unit) (objR : Except Unit String)
    (textR : Except Unit TextGenResult) :
    (generateTrajectoryForSample sample prompt uso schema objR textR).messages.head? =
      some ⟨"user", TContent.text (extractUserInput sample)⟩ ∧
    (∃ m ∈ (generateTrajectoryForSample sample prompt uso schema objR textR).messages,
      m.role = "assistant") ∧
    ((uso && schema.isSome) = true → objR = .error () →
      (generateTrajectoryForSample sample prompt uso schema objR textR).messages.getLast? =
        some ⟨"assistant", TContent.text errorMarker⟩) ∧
    ((uso && schema.isSome) = false → textR = .error () →
      (generateTrajectoryForSample sample prompt uso schema objR textR).messages.getLast? =
        some ⟨"assistant", TContent.text errorMarker⟩) := by
  unfold generateTrajectoryForSample
  by_cases hb : (uso && schema.isSome) = true
  · rw [hb]
    cases objR with
    | ok json =>
      refine ⟨by simp, ⟨⟨"assistant", TContent.text json⟩, by simp⟩, ?_, ?_⟩
      · intro _ hobj
        exact absurd hobj (by simp)
      · intro hfalse
        exact absurd hfalse (by simp)
    | error e =>
      refine ⟨by simp [errorMessages], ?_, ?_, ?_⟩
      · exact ⟨⟨"assistant", TContent.text errorMarker⟩, by simp [errorMessages]⟩
      · intro _ _
        simp [errorMessages]
      · intro hfalse
        exact absurd hfalse (by simp)
  · rw [Bool.not_eq_true] at hb
    rw [hb]
    cases textR with
    | ok res =>
      refine ⟨?_, ?_, ?_, ?_⟩
      · show (textPathMessages (extractUserInput sample) res).head? = _
        unfold textPathMessages
        by_cases hlen :
            (TMsg.mk "user" (TContent.text (extractUserInput sample)) ::
              ((res.steps.map stepMessages).flatten)).length = 1
        · rw [if_pos hlen]; simp
        · rw [if_neg hlen]; simp
      · exact textPathMessages_assistant _ res
      · intro htrue
        exact absurd htrue (by simp)
      · intro _ htextR
        exact absurd htextR (by simp)
    | error e =>
      refine ⟨by simp [errorMessages], ?_, ?_, ?_⟩
      · exact ⟨⟨"assistant", TContent.text errorMarker⟩, by simp [errorMessages]⟩
      · intro htrue
        exact absurd htrue (by simp)
      · intro _ _
        simp [errorMessages]

theorem generateTrajectory_total_spec_witness :
    (generateTrajectoryForSample sampleA "P" false none (Except.error ())
      (Except.error ())).messages.getLast? =
      some ⟨"assistant", TContent.text errorMarker⟩ :=
  (generateTrajectory_total_spec sampleA "P" false none (Except.error ())
    (Except.error ())).2.2.2 rfl rfl

theorem gepaIteration_noMutualDom (cfg : OptimizeRequest) (env : LLMEnv)
    (schema : Option Unit) (samples : List Sample) (randoms : ℕ → ℕ)
    (st : LoopState) (i : ℕ)
    (h : NoMutualDom st.collection cfg.selectedMetrics) :
    NoMutualDom (gepaIteration cfg env schema samples randoms st i).2.collectionAfter
      cfg.selectedMetrics := by
  cases hacc : (gepaIteration cfg env schema samples randoms st i).2.accepted with
  | true =>
    rw [(gepaIteration_accepted cfg env schema samples randoms st i hacc).2]
    exact noMutualDom_updateParetoFrontier h
  | false =>
    rw [(gepaIteration_rejected cfg env schema samples randoms st i hacc).2]
    exact h

theorem gepaIteration_collectionAfter_ne_nil (cfg : OptimizeRequest)
    (env : LLMEnv) (schema : Option Unit) (samples : List Sample)
    (randoms : ℕ → ℕ) (st : LoopState) (i : ℕ) (h : st.collection ≠ []) :
    (gepaIteration cfg env schema samples randoms st i).2.collectionAfter ≠ [] := by
  cases hacc : (gepaIteration cfg env schema samples randoms st i).2.accepted with
  | true =>
    rw [(gepaIteration_accepted cfg env schema samples randoms st i hacc).2]
    exact updateParetoFrontier_ne_nil _ _ _
  | false =>
    rw [(gepaIteration_rejected cfg env schema samples randoms st i hacc).2]
    exact h

theorem seedLoopState_noMutualDom (cfg : OptimizeRequest) (env : LLMEnv)
    (ls : Option Unit) (samples : List Sample) (seed : String)
    (randoms : ℕ → ℕ) :
    NoMutualDom (seedLoopState cfg env ls samples seed randoms).collection
      cfg.selectedMetrics := by
  intro x hx y hy
  rw [seedLoopState, List.mem_singleton] at hx hy
  subst hx; subst hy
  exact dominates_self _ _

/-- C2: `updateParetoFrontier` preserves the no-mutual-dominance invariant (a
candidate dominating another on the `?? 0` reading of every selected metric,
strictly on one), and therefore every collection reachable in a run — each
iteration's resulting collection, starting from the singleton seed — carries
the invariant. -/
theorem updateParetoFrontier_noMutualDom_invariant :
    (∀ (sm : List String) (c : List PromptCandidate) (n : PromptCandidate),
      NoMutualDom c sm → NoMutualDom (updateParetoFrontier c n sm) sm) ∧
    ∀ (cfg : OptimizeRequest) (env : LLMEnv) (ls : Option Unit)
      (samples : List Sample) (seed : String) (randoms : ℕ → ℕ),
      (∀ r ∈ (runGEPA cfg env ls samples seed randoms).iterations,
        NoMutualDom r.collectionAfter cfg.selectedMetrics) ∧
      NoMutualDom (runGEPA cfg env ls samples seed randoms).finalCollection
        cfg.selectedMetrics := by
  refine ⟨fun sm c n h => noMutualDom_updateParetoFrontier h, ?_⟩
  intro cfg env ls samples seed randoms
  by_cases hz : samples.length = 0
  · unfold runGEPA
    rw [if_pos hz]
    exact ⟨by simp, by intro x hx; simp at hx⟩
  · unfold runGEPA
    rw [if_neg hz]
    dsimp only
    obtain ⟨hfin, hrec⟩ :=
      runIterations_inv cfg env (gepaSchema cfg ls) samples randoms
        (fun st => NoMutualDom st.collection cfg.selectedMetrics)
        (fun r => NoMutualDom r.collectionAfter cfg.selectedMetrics)
        (fun st i hI => by
          dsimp only
          rw [(gepaIteration_state cfg env (gepaSchema cfg ls) samples randoms st i).1]
          exact gepaIteration_noMutualDom cfg env (gepaSchema cfg ls) samples randoms st i hI)
        (fun st i hI =>
          gepaIteration_noMutualDom cfg env (gepaSchema cfg ls) samples randoms st i hI)
        ((List.range cfg.numRollouts).map (fun i => i + 1))
        (seedLoopState cfg env ls samples seed randoms)
        (seedLoopState_noMutualDom cfg env ls samples seed randoms)
    exact ⟨hrec, hfin⟩

theorem updateParetoFrontier_noMutualDom_witness :
    NoMutualDom (updateParetoFrontier [candTone] candAcc twoDims) twoDims :=
  updateParetoFrontier_noMutualDom_invariant.1 twoDims [candTone] candAcc
    (by intro x hx y hy; simp [candTone, List.mem_singleton] at hx hy;
        subst hx; subst hy; exact dominates_self _ _)

/-- C10: the frontier update never empties a non-empty collection (a dominated
newcomer's dominator is itself never removed, dominance being asymmetric), so
throughout a run with samples the collection stays non-empty and the
selection fold — JS `reduce`, which throws on `[]` — is always applied to a
non-empty collection. -/
theorem collection_nonempty_invariant :
    (∀ (c : List PromptCandidate) (n : PromptCandidate) (sm : List String),
      c ≠ [] → updateParetoFrontier c n sm ≠ []) ∧
    ∀ (cfg : OptimizeRequest) (env : LLMEnv) (ls : Option Unit)
      (samples : List Sample) (seed : String) (randoms : ℕ → ℕ),
      samples.length ≠ 0 →
      (runGEPA cfg env ls samples seed randoms).finalCollection ≠ [] ∧
      (selectPrompt (runGEPA cfg env ls samples seed randoms).finalCollection).isSome = true ∧
      (runGEPA cfg env ls samples seed randoms).finalCandidate.isSome = true ∧
      ∀ r ∈ (runGEPA cfg env ls samples seed randoms).iterations,
        r.collectionBefore ≠ [] ∧
        (selectPrompt r.collectionBefore).isSome = true ∧
        r.collectionAfter ≠ [] := by
  refine ⟨fun c n sm _ => updateParetoFrontier_ne_nil c n sm, ?_⟩
  intro cfg env ls samples seed randoms hz
  unfold runGEPA
  rw [if_neg hz]
  dsimp only
  obtain ⟨hfin, hrec⟩ :=
    runIterations_inv cfg env (gepaSchema cfg ls) samples randoms
      (fun st => st.collection ≠ [])
      (fun r => r.collectionBefore ≠ [] ∧
        (selectPrompt r.collectionBefore).isSome = true ∧
        r.collectionAfter ≠ [])
      (fun st i hI => by
        dsimp only
        rw [(gepaIteration_state cfg env (gepaSchema cfg ls) samples randoms st i).1]
        exact gepaIteration_collectionAfter_ne_nil cfg env (gepaSchema cfg ls)
          samples randoms st i hI)
      (fun st i hI => by
        dsimp only
        rw [gepaIteration_collectionBefore cfg env (gepaSchema cfg ls) samples randoms st i]
        exact ⟨hI, selectPrompt_isSome hI,
          gepaIteration_collectionAfter_ne_nil cfg env (gepaSchema cfg ls)
            samples randoms st i hI⟩)
      ((List.range cfg.numRollouts).map (fun i => i + 1))
      (seedLoopState cfg env ls samples seed randoms)
      (by rw [seedLoopState]; simp)
  exact ⟨hfin, selectPrompt_isSome hfin, selectPrompt_isSome hfin, hrec⟩

theorem collection_nonempty_witness :
    updateParetoFrontier [candTone] candAcc twoDims ≠ [] :=
  collection_nonempty_invariant.1 [candTone] candAcc twoDims (by simp)

/-- C3 (amended): at every selection point — each iteration's parent selection
and the final selection — `selectPrompt` returns a member of the CURRENT
candidate collection with the highest `overallScore` in that collection.
Candidates removed by earlier Pareto-frontier updates are not considered: the
selector folds over the current collection only, not over all candidates ever
added. -/
theorem selectPrompt_current_max :
    (∀ (c : List PromptCandidate) (m : PromptCandidate), selectPrompt c = some m →
      m ∈ c ∧ ∀ x ∈ c, x.overallScore ≤ m.overallScore) ∧
    ∀ (cfg : OptimizeRequest) (env : LLMEnv) (ls : Option Unit)
      (samples : List Sample) (seed : String) (randoms : ℕ → ℕ),
      samples.length ≠ 0 →
      (∀ r ∈ (runGEPA cfg env ls samples seed randoms).iterations,
        r.selectedCandidate ∈ r.collectionBefore ∧
        ∀ x ∈ r.collectionBefore,
          x.overallScore ≤ r.selectedCandidate.overallScore) ∧
      ∀ m, (runGEPA cfg env ls samples seed randoms).finalCandidate = some m →
        m ∈ (runGEPA cfg env ls samples seed randoms).finalCollection ∧
        ∀ x ∈ (runGEPA cfg env ls samples seed randoms).finalCollection,
          x.overallScore ≤ m.overallScore := by
  refine ⟨fun c m h => selectPrompt_mem_max h, ?_⟩
  intro cfg env ls samples seed randoms hz
  unfold runGEPA
  rw [if_neg hz]
  dsimp only
  obtain ⟨hfin, hrec⟩ :=
    runIterations_inv cfg env (gepaSchema cfg ls) samples randoms
      (fun st => st.collection ≠ [])
      (fun r => r.selectedCandidate ∈ r.collectionBefore ∧
        ∀ x ∈ r.collectionBefore,
          x.overallScore ≤ r.selectedCandidate.overallScore)
      (fun st i hI => by
        dsimp only
        rw [(gepaIteration_state cfg env (gepaSchema cfg ls) samples randoms st i).1]
        exact gepaIteration_collectionAfter_ne_nil cfg env (gepaSchema cfg ls)
          samples randoms st i hI)
      (fun st i hI => by
        dsimp only
        rw [gepaIteration_collectionBefore cfg env (gepaSchema cfg ls) samples randoms st i]
        exact selectPrompt_mem_max
          (gepaIteration_selected cfg env (gepaSchema cfg ls) samples randoms st i hI))
      ((List.range cfg.numRollouts).map (fun i => i + 1))
      (seedLoopState cfg env ls samples seed randoms)
      (by rw [seedLoopState]; simp)
  exact ⟨hrec, fun m hm => selectPrompt_mem_max hm⟩

/-- C1: in every run, every iteration accepts — creates a new candidate and
hands it to the frontier update — exactly when the improved prompt's batch
overall score strictly exceeds the selected parent's overall score on the
same batch; the created candidate is `candidate-<i>` carrying the improved
evaluation's metrics and overall score, so every accepted candidate scores
strictly above the parent's batch overall at its iteration.  (Membership of
the new candidate in the resulting collection is then governed by the
dominance rule of `updateParetoFrontier`.) -/
theorem gepa_acceptance_strict_improvement (cfg : OptimizeRequest)
    (env : LLMEnv) (ls : Option Unit) (samples : List Sample) (seed : String)
    (randoms : ℕ → ℕ) (h : samples.length ≠ 0) :
    ((runGEPA cfg env ls samples seed randoms).iterations.map
        (fun r => r.iteration) =
      (List.range cfg.numRollouts).map (fun i => i + 1)) ∧
    ∀ r ∈ (runGEPA cfg env ls samples seed randoms).iterations,
      (r.accepted = true ↔
        r.batchEval.overallScore < r.improvedEval.overallScore) ∧
      r.batchEval =
        evaluateBatch cfg.selectedMetrics
          (evalSampleWithPrompt env cfg.useStructuredOutput (gepaSchema cfg ls)
            r.selectedCandidate.prompt) r.batch ∧
      r.improvedEval =
        evaluateBatch cfg.selectedMetrics
          (evalSampleWithPrompt env cfg.useStructuredOutput (gepaSchema cfg ls)
            r.improvedPrompt) r.batch ∧
      (r.accepted = true →
        r.newCandidate =
          some ⟨"candidate-" ++ toString r.iteration, r.improvedPrompt,
            r.improvedEval.metrics, r.improvedEval.overallScore, []⟩ ∧
        r.collectionAfter =
          updateParetoFrontier r.collectionBefore
            ⟨"candidate-" ++ toString r.iteration, r.improvedPrompt,
              r.improvedEval.metrics, r.improvedEval.overallScore, []⟩
            cfg.selectedMetrics) ∧
      (r.accepted = false →
        r.newCandidate = none ∧ r.collectionAfter = r.collectionBefore) ∧
      ∀ c, r.newCandidate = some c →
        r.batchEval.overallScore < c.overallScore := by
  constructor
  · unfold runGEPA
    rw [if_neg h]
    exact runIterations_iteration_map cfg env (gepaSchema cfg ls) samples randoms _ _
  · unfold runGEPA
    rw [if_neg h]
    dsimp only
    obtain ⟨_, hrec⟩ :=
      runIterations_inv cfg env (gepaSchema cfg ls) samples randoms
        (fun _ => True)
        (fun r =>
          (r.accepted = true ↔
            r.batchEval.overallScore < r.improvedEval.overallScore) ∧
          r.batchEval =
            evaluateBatch cfg.selectedMetrics
              (evalSampleWithPrompt env cfg.useStructuredOutput (gepaSchema cfg ls)
                r.selectedCandidate.prompt) r.batch ∧
          r.improvedEval =
            evaluateBatch cfg.selectedMetrics
              (evalSampleWithPrompt env cfg.useStructuredOutput (gepaSchema cfg ls)
                r.improvedPrompt) r.batch ∧
          (r.accepted = true →
            r.newCandidate =
              some ⟨"candidate-" ++ toString r.iteration, r.improvedPrompt,
                r.improvedEval.metrics, r.improvedEval.overallScore, []⟩ ∧
            r.collectionAfter =
              updateParetoFrontier r.collectionBefore
                ⟨"candidate-" ++ toString r.iteration, r.improvedPrompt,
                  r.improvedEval.metrics, r.improvedEval.overallScore, []⟩
                cfg.selectedMetrics) ∧
          (r.accepted = false →
            r.newCandidate = none ∧ r.collectionAfter = r.collectionBefore) ∧
          ∀ c, r.newCandidate = some c →
            r.batchEval.overallScore < c.overallScore)
        (fun _ _ _ => trivial)
        (fun st i _ => by
          dsimp only
          have hit := gepaIteration_iteration cfg env (gepaSchema cfg ls) samples randoms st i
          have hcb := gepaIteration_collectionBefore cfg env (gepaSchema cfg ls) samples randoms st i
          refine ⟨gepaIteration_accept_iff cfg env (gepaSchema cfg ls) samples randoms st i,
            (gepaIteration_batchEval cfg env (gepaSchema cfg ls) samples randoms st i).1,
            (gepaIteration_batchEval cfg env (gepaSchema cfg ls) samples randoms st i).2,
            ?_, ?_, ?_⟩
          · intro hacc
            obtain ⟨h1, h2⟩ :=
              gepaIteration_accepted cfg env (gepaSchema cfg ls) samples randoms st i hacc
            rw [hit, hcb]
            exact ⟨h1, h2⟩
          · intro hacc
            obtain ⟨h1, h2⟩ :=
              gepaIteration_rejected cfg env (gepaSchema cfg ls) samples randoms st i hacc
            rw [hcb]
            exact ⟨h1, h2⟩
          · intro c hc
            cases hacc : (gepaIteration cfg env (gepaSchema cfg ls) samples randoms st i).2.accepted with
            | false =>
              rw [(gepaIteration_rejected cfg env (gepaSchema cfg ls) samples randoms st i hacc).1] at hc
              exact absurd hc (by simp)
            | true =>
              obtain ⟨h1, _⟩ :=
                gepaIteration_accepted cfg env (gepaSchema cfg ls) samples randoms st i hacc
              rw [h1] at hc
              have hceq := Option.some.inj hc
              rw [← hceq]
              exact (gepaIteration_accept_iff cfg env (gepaSchema cfg ls) samples randoms st i).mp hacc)
        ((List.range cfg.numRollouts).map (fun i => i + 1))
        (seedLoopState cfg env ls samples seed randoms)
        trivial
    exact hrec

theorem runGEPA_event_types (cfg : OptimizeRequest) (env : LLMEnv)
    (ls : Option Unit) (samples : List Sample) (seed : String)
    (randoms : ℕ → ℕ) (h : samples.length ≠ 0) :
    ∀ e ∈ (runGEPA cfg env ls samples seed randoms).events,
      e.type = "start" ∨ e.type = "iteration" ∨ e.type = "complete" := by
  unfold runGEPA
  rw [if_neg h]
  dsimp only
  intro e he
  rcases List.mem_cons.mp he with h1 | h2
  · left
    rw [h1]
    rfl
  · rcases List.mem_append.mp h2 with h3 | h4
    · obtain ⟨l, hl, hel⟩ := List.mem_flatten.mp h3
      obtain ⟨r, hr, hrl⟩ := List.mem_map.mp hl
      obtain ⟨_, hrec⟩ :=
        runIterations_inv cfg env (gepaSchema cfg ls) samples randoms
          (fun _ => True)
          (fun r => ∀ e ∈ r.events, e.type = "iteration")
          (fun _ _ _ => trivial)
          (fun st i _ =>
            gepaIteration_events cfg env (gepaSchema cfg ls) samples randoms st i)
          ((List.range cfg.numRollouts).map (fun i => i + 1))
          (seedLoopState cfg env ls samples seed randoms)
          trivial
      right; left
      rw [← hrl] at hel
      exact hrec r hr e hel
    · right; right
      rw [List.mem_singleton.mp h4]

/-- C5 (amended): with `useStructuredOutput = true` and no loadable schema,
the run does NOT emit a `missing_schema` (or any) error: the
`useStructuredOutput && schema` guard fails, trajectory generation silently
falls back to the plain-text path, and the run proceeds exactly as in text
mode. -/
theorem structured_without_schema_fallback :
    (∀ (sample : Sample) (prompt : String) (objR : Except Unit String)
        (textR : Except Unit TextGenResult),
      generateTrajectoryForSample sample prompt true none objR textR =
        generateTrajectoryForSample sample prompt false none objR textR) ∧
    ∀ (cfg : OptimizeRequest) (env : LLMEnv) (samples : List Sample)
      (seed : String) (randoms : ℕ → ℕ),
      samples.length ≠ 0 →
      ∀ e ∈ (runGEPA cfg env none samples seed randoms).events,
        e.type ≠ "error" := by
  constructor
  · intro sample prompt objR textR
    rfl
  · intro cfg env samples seed randoms h e he
    rcases runGEPA_event_types cfg env none samples seed randoms h e he with
      h1 | h2 | h3
    · rw [h1]; simp
    · rw [h2]; simp
    · rw [h3]; simp

/-- C7 (amended): when the reflection-model call throws, `improvePrompt`
returns the current prompt unchanged, and NO `reflection_failed` event is
emitted — the failure is only written to the console; in fact no event of
that type exists anywhere in a run's stream. -/
theorem improvePrompt_error_unchanged_no_event :
    (∀ (reflCall : String → Except Unit String) (p : String)
        (sg fb : List String),
      reflCall (improvementPromptText p sg fb) = .error () →
      improvePrompt reflCall p sg fb = p) ∧
    ∀ (cfg : OptimizeRequest) (env : LLMEnv) (ls : Option Unit)
      (samples : List Sample) (seed : String) (randoms : ℕ → ℕ),
      ∀ e ∈ (runGEPA cfg env ls samples seed randoms).events,
        e.type ≠ "reflection_failed" := by
  constructor
  · intro reflCall p sg fb h
    unfold improvePrompt
    rw [h]
  · intro cfg env ls samples seed randoms e he
    by_cases hz : samples.length = 0
    · unfold runGEPA at he
      rw [if_pos hz] at he
      have : e = noSamplesEvent := by
        simpa using he
      rw [this]
      simp [noSamplesEvent]
    · rcases runGEPA_event_types cfg env ls samples seed randoms hz e he with
        h1 | h2 | h3
      · rw [h1]; simp
      · rw [h2]; simp
      · rw [h3]; simp

theorem textPathMessages_ne_nil (u : String) (res : TextGenResult) :
    textPathMessages u res ≠ [] := by
  unfold textPathMessages
  dsimp only
  split
  · simp
  · simp

theorem generateTrajectory_messages_ne_nil (sample : Sample) (prompt : String)
    (uso : Bool) (schema : Option Unit) (objR : Except Unit String)
    (textR : Except Unit TextGenResult) :
    (generateTrajectoryForSample sample prompt uso schema objR textR).messages ≠ [] := by
  unfold generateTrajectoryForSample
  by_cases hb : (uso && schema.isSome) = true
  · rw [hb]
    cases objR with
    | ok json => simp
    | error e => simp [errorMessages]
  · rw [Bool.not_eq_true] at hb
    rw [hb]
    cases textR with
    | ok res => exact textPathMessages_ne_nil _ res
    | error e => simp [errorMessages]

/-- C9 (amended): a sample with no `user` message is NOT skipped: the
extracted user input degrades to the empty string, a trajectory is still
generated (and judged), and every sample of a non-empty batch contributes
exactly one judged result to the batch evaluation — there is no filtering on
roles and no warning path for such samples. -/
theorem no_user_sample_not_skipped :
    (∀ sample : Sample,
      sample.messages.find? (fun m => m.role = "user") = none →
      extractUserInput sample = "") ∧
    (∀ (sample : Sample) (prompt : String) (uso : Bool) (schema : Option Unit)
        (objR : Except Unit String) (textR : Except Unit TextGenResult),
      (generateTrajectoryForSample sample prompt uso schema objR textR).messages ≠ []) ∧
    ∀ (sm : List String) (evalOne : Sample → SampleEvalResult)
      (batch : List Sample),
      batch.length ≠ 0 →
      (evaluateBatch sm evalOne batch).feedbacks.length = batch.length ∧
      (evaluateBatch sm evalOne batch).suggestions.length = batch.length := by
  refine ⟨?_, generateTrajectory_messages_ne_nil, ?_⟩
  · intro sample hfind
    unfold extractUserInput
    rw [hfind]
  · intro sm evalOne batch h
    unfold evaluateBatch
    rw [if_neg h]
    simp

section ConcreteEvaluation

attribute [local semireducible] Rat.add Rat.mul Rat.inv Rat.sub

theorem gepa_acceptance_strict_improvement_witness :
    cexIter1.accepted = true ↔
      cexIter1.batchEval.overallScore < cexIter1.improvedEval.overallScore :=
  ((gepa_acceptance_strict_improvement cexCfg cexEnv none cexSamples "SEED"
      (fun n => n) (by decide)).2 cexIter1 (by decide)).1

/-- C3 counterexample: in `cexRun` the seed candidate (overall 9/10) is added
at the start and later removed from the collection by the frontier update
(its metrics are dominated by `candidate-1`); the final selection returns
`candidate-1` with overall 3/10, NOT the highest-scoring candidate ever
added.  The selector ranges over the current collection only. -/
theorem selectPrompt_ever_added_counterexample :
    cexRun.seedCandidate =
      some ⟨"seed", "SEED", [("accuracy", 1/2)], 9/10, []⟩ ∧
    cexRun.iterations.map (fun r => r.newCandidate) =
      [some ⟨"candidate-1", "P2", [("accuracy", 3/5)], 3/10, []⟩] ∧
    cexRun.finalCollection =
      [⟨"candidate-1", "P2", [("accuracy", 3/5)], 3/10, []⟩] ∧
    cexRun.finalCandidate =
      some ⟨"candidate-1", "P2", [("accuracy", 3/5)], 3/10, []⟩ ∧
    (3 : ℚ)/10 < 9/10 := by
  decide

theorem selectPrompt_current_max_witness :
    candAcc ∈ [candTone, candAcc] :=
  (selectPrompt_current_max.1 [candTone, candAcc] candAcc (by decide)).1

/-- C5 counterexample: with `useStructuredOutput = true` and no loadable
schema, the run emits NO error event at all (in particular no
`missing_schema`): it proceeds, creates the seed candidate, and completes. -/
theorem missing_schema_counterexample :
    schemaCfg.useStructuredOutput = true ∧
    gepaSchema schemaCfg none = none ∧
    schemaRun.events.map (fun e => e.type) = ["start", "complete"] ∧
    schemaRun.events.all (fun e => !(e.type == "error")) = true ∧
    schemaRun.finalCollection.length = 1 := by
  decide

theorem structured_without_schema_witness :
    startEvent.type ≠ "error" :=
  (structured_without_schema_fallback.2 schemaCfg cexEnv [sampleA] "SEED"
    (fun n => n) (by decide)) startEvent (by decide)

/-- C7 counterexample: in `reflFailRun` the reflection call of iteration 1
throws, the rewriter hands back the parent prompt unchanged — but NO
`reflection_failed` event appears in the stream; the iteration is simply
rejected. -/
theorem reflection_failed_counterexample :
    (reflFailEnv.reflCall (improvementPromptText "SEED" ["sg2"] ["fb2"])).isOk =
      false ∧
    reflFailRun.iterations.map (fun r => r.selectedCandidate.prompt) =
      ["SEED"] ∧
    reflFailRun.iterations.map (fun r => r.improvedPrompt) = ["SEED"] ∧
    reflFailRun.iterations.map (fun r => r.accepted) = [false] ∧
    reflFailRun.events.map (fun e => e.type) =
      ["start", "iteration", "complete"] ∧
    reflFailRun.events.all (fun e => !(e.type == "reflection_failed")) = true := by
  decide

theorem improvePrompt_error_witness :
    improvePrompt (fun _ => Except.error ()) "SEED" ["sg"] ["fb"] = "SEED" :=
  improvePrompt_error_unchanged_no_event.1 (fun _ => Except.error ()) "SEED"
    ["sg"] ["fb"] rfl

/-- C9 counterexample: a sample with no `user` message is not skipped — a
trajectory is generated from the empty extracted input, it is judged, and its
score and feedback are counted in the batch aggregation. -/
theorem no_user_sample_counterexample :
    sampleNoUser.messages.all (fun m => !(m.role == "user")) = true ∧
    extractUserInput sampleNoUser = "" ∧
    (generateTrajectoryForSample sampleNoUser "P" false none (Except.error ())
      (Except.ok ⟨[], "resp"⟩)).messages =
      [⟨"user", TContent.text ""⟩, ⟨"assistant", TContent.text "resp"⟩] ∧
    (evaluateBatch ["accuracy"] (evalSampleWithPrompt constEnv false none "P")
      [sampleNoUser]).overallScore = 7/10 ∧
    (evaluateBatch ["accuracy"] (evalSampleWithPrompt constEnv false none "P")
      [sampleNoUser]).feedbacks = ["fbn"] := by
  decide

theorem no_user_sample_witness :
    extractUserInput sampleNoUser = "" :=
  no_user_sample_not_skipped.1 sampleNoUser (by decide)

end ConcreteEvaluation
